import Mathlib

/-!
A shallow embedding of the guard/middleware pipeline of the
cloud-native-gauntlet task-api (Rust/axum), covering:

* the Role coercion (models/role.rs),
* the authentication guard and the admin authorization guard
  (handlers/middleware.rs),
* the route-group composition (routes.rs, both variants),
* the observability wrapper (handlers/logging_middleware.rs).

Machine integers do not occur on the modelled paths; HTTP status codes are
Nat. External library calls (jsonwebtoken decode, the sqlx user lookup and
the Keycloak layer) are abstracted as oracle functions supplied through an
environment, so theorems quantify over every possible behaviour of those
collaborators. Where a library rendering matters (axum turning an
error tuple into a response) the library behaviour is embedded explicitly
and documented at the definition.
-/

/-- Decoded JWT claims; models struct Claims in models/user.rs
(sub: String, iat: usize, exp: usize). -/
structure Claims where
  sub : String
  iat : Nat
  exp : Nat
deriving Repr, DecidableEq

/-- Database user row; models struct User in models/user.rs. The Uuid id
is kept as its canonical string. -/
structure User where
  id : String
  name : String
  email : String
  password : String
  role : String
  verified : Bool
deriving Repr, DecidableEq

/-- Closed role set; models enum Role in models/role.rs. -/
inductive Role where
  | User
  | Admin
deriving Repr, DecidableEq

/-- Rust str::to_lowercase, as a structurally recursive map over the
characters (kernel-reducible, unlike core String.toLower which is the
same map stated by position). The Lean Char.toLower lowercases A-Z;
see Role.ofString for why that agrees with Rust on the strings that
matter to the role coercion. -/
def lowerStr (s : String) : String :=
  String.mk (s.data.map Char.toLower)

/-- Rust str::starts_with for a literal pattern. -/
def startsWithStr (s pat : String) : Bool :=
  List.isPrefixOf pat.data s.data

/-- Drop the first n characters of a string (the remainder after a
matched literal Rust str::strip_prefix of length n). -/
def dropStr (s : String) (n : Nat) : String :=
  String.mk (s.data.drop n)

/-- Models the From String instance for Role in models/role.rs: lowercase the
input and match, with a catch-all arm returning Role::User. the Lean
String.toLower (ASCII) and the Rust to_lowercase agree on every string whose
lowercase form could be "admin" or "user": the full Unicode mappings send
no character outside A-Z to a bare ASCII letter of those words. -/
def Role.ofString (s : String) : Role :=
  match lowerStr s with
  | "admin" => Role.Admin
  | "user" => Role.User
  | _ => Role.User

/-- An HTTP response as the pipeline observes it: status, headers, body. -/
structure HttpResponse where
  status : Nat
  headers : List (String × String)
  body : String
deriving Repr, DecidableEq

/-- Models the axum IntoResponse instance for pairs of a StatusCode and a static str,
the type both guards return in their Err branch: the response carries the
given status and the bare message string as a text/plain body. -/
def renderErr (status : Nat) (msg : String) : HttpResponse :=
  { status := status
    headers := [("content-type", "text/plain; charset=utf-8")]
    body := msg }

/-- Hex-digit test used by the UUID parser model. -/
def hexDigit (c : Char) : Bool :=
  c.isDigit || (Nat.ble 97 c.toNat && Nat.ble c.toNat 102) ||
    (Nat.ble 65 c.toNat && Nat.ble c.toNat 70)

/-- Models uuid::Uuid::parse_str on its two standard text forms: the
simple 32-hex-digit form and the hyphenated 8-4-4-4-12 form (the claims
under verification depend only on such inputs succeeding and on
non-UUID strings failing). Returns the accepted string as the canonical
value. -/
def uuidParseStr (s : String) : Option String :=
  let cs := s.data
  if cs.length = 32 && cs.all hexDigit then
    some s
  else if cs.length = 36 &&
      (cs.enum.all fun p =>
        if p.1 == 8 || p.1 == 13 || p.1 == 18 || p.1 == 23 then
          p.2 == Char.ofNat 45
        else hexDigit p.2) then
    some s
  else
    none

/-- Outcome of the authentication guard body. ok u means the guard
attached the user to the request extensions and invoked the inner stage;
reject s m models Err((s, m)); panicked models reaching the .unwrap()
call on a failed Uuid parse, which aborts the request task instead of
producing a response. -/
inductive AuthResult where
  | ok : User → AuthResult
  | reject : Nat → String → AuthResult
  | panicked : String → AuthResult
deriving Repr, DecidableEq

/-- The external collaborators of auth_guard. decode models
jsonwebtoken::decode with the configured secret and default validation
(none models any decode error: bad signature, expiry, not a JWT);
fetchUser models the sqlx fetch_one of a user by id (none models any
query error, including no matching row). -/
structure AuthEnv where
  decode : String → Option Claims
  fetchUser : String → Option User

/-- Result of one run of auth_guard, instrumented with whether the
decode (cryptographic verification) step was reached. -/
structure AuthOutcome where
  result : AuthResult
  decodeCalled : Bool
deriving Repr, DecidableEq

/-- Models auth_guard in handlers/middleware.rs. The authHeader argument
is the value of headers().get(AUTHORIZATION).and_then(to_str().ok()):
none covers both an absent header and one whose bytes are not visible
ASCII. The Rust code strips the case-sensitive "Bearer " via
strip_prefix (here: startsWith + drop 7), decodes the remainder, then
binds Uuid::parse_str(&claims.sub).unwrap() — the unwrap panics when the
subject is not a valid UUID — and finally fetches the user, mapping any
fetch error to 401. -/
def auth_guard (env : AuthEnv) (authHeader : Option String) : AuthOutcome :=
  match authHeader with
  | none =>
    { result := AuthResult.reject 401 "Missing or invalid Authorization header"
      decodeCalled := false }
  | some h =>
    if startsWithStr h "Bearer " then
      let token := dropStr h 7
      { result :=
          match env.decode token with
          | none => AuthResult.reject 401 "Invalid token"
          | some claims =>
            match uuidParseStr claims.sub with
            | none => AuthResult.panicked "called Result::unwrap on an Err value"
            | some uid =>
              match env.fetchUser uid with
              | none => AuthResult.reject 401 "User not found"
              | some user => AuthResult.ok user
        decodeCalled := true }
    else
      { result := AuthResult.reject 401 "Invalid token format"
        decodeCalled := false }

/-- Outcome of the admin guard body; reject s m models Err((s, m)). -/
inductive AdminResult where
  | ok : AdminResult
  | reject : Nat → String → AdminResult
deriving Repr, DecidableEq

/-- Models admin_guard in handlers/middleware.rs: read the User from the
request extensions (401 when absent), then compare the role string
against the literal "admin" with ordinary string equality. -/
def admin_guard (ext : Option User) : AdminResult :=
  match ext with
  | none => AdminResult.reject 401 "User not authenticated"
  | some user =>
    if user.role ≠ "admin" then AdminResult.reject 403 "Admin access required"
    else AdminResult.ok

/-- The request context a guard stage sees: the Authorization header value
(after to_str().ok()) and the User extension, the only extension the
modelled guards touch. -/
structure Req where
  authHeader : Option String
  ext : Option User
deriving Repr, DecidableEq

/-- Named entry points of the pipeline stages, recorded in order as a
request flows inward, to make the layering order of the route groups
observable in theorems. identityAttached marks the extensions insert in
auth_guard just before it invokes the inner stage. -/
inductive Stage where
  | authEntered
  | identityAttached
  | adminEntered
  | handlerEntered
deriving Repr, DecidableEq

/-- What flows back out of a stage: a response, or a crashed request task
(a panic unwound before any response was produced). -/
inductive PipelineResponse where
  | ok : HttpResponse → PipelineResponse
  | crashed : String → PipelineResponse
deriving Repr, DecidableEq

abbrev TracedResult := PipelineResponse × List Stage

/-- A tower/axum middleware over the modelled request type: it receives
the request and the inner service. -/
abbrev Middleware := Req → (Req → TracedResult) → TracedResult

/-- Models Router::route_layer / Router::layer chains: the list holds the
layers in the order the source adds them, and axum applies the layer
added last as the outermost one (it sees the request first), so the
composition folds from the inner service outward. -/
def applyLayers (layers : List Middleware) (inner : Req → TracedResult) :
    Req → TracedResult :=
  layers.foldl (fun h l => fun req => l req h) inner

/-- auth_guard as a pipeline stage: on ok it inserts the user into the
request extensions and runs the inner service; on Err axum renders the
tuple; on the unwrap panic the task dies with no response. -/
def authGuardMw (env : AuthEnv) : Middleware := fun req next =>
  match (auth_guard env req.authHeader).result with
  | AuthResult.reject s m => (PipelineResponse.ok (renderErr s m), [Stage.authEntered])
  | AuthResult.panicked m => (PipelineResponse.crashed m, [Stage.authEntered])
  | AuthResult.ok user =>
    let r := next { req with ext := some user }
    (r.1, Stage.authEntered :: Stage.identityAttached :: r.2)

/-- admin_guard as a pipeline stage. -/
def adminGuardMw : Middleware := fun req next =>
  match admin_guard req.ext with
  | AdminResult.reject s m => (PipelineResponse.ok (renderErr s m), [Stage.adminEntered])
  | AdminResult.ok =>
    let r := next req
    (r.1, Stage.adminEntered :: r.2)

/-- The route handler as the innermost service (its business logic is
an external collaborator, abstracted as a function of the request). -/
def handlerStage (handler : Req → HttpResponse) : Req → TracedResult :=
  fun req => (PipelineResponse.ok (handler req), [Stage.handlerEntered])

/-- Models the protected_routes group of task-api routes.rs: a single
route_layer carrying auth_guard around the handlers. -/
def protected_routes (env : AuthEnv) (handler : Req → HttpResponse) :
    Req → TracedResult :=
  applyLayers [authGuardMw env] (handlerStage handler)

/-- Models the admin_routes group of task-api routes.rs: route_layer
(admin_guard) is added first, route_layer(auth_guard) second, so the
auth_guard layer is outermost and meets the request first. -/
def admin_routes (env : AuthEnv) (handler : Req → HttpResponse) :
    Req → TracedResult :=
  applyLayers [adminGuardMw, authGuardMw env] (handlerStage handler)

/-- Models the KeycloakAuthLayer of the gitops app-source variant
(external library, abstracted): verify is its whole token check — on
some it attaches the resolved user to the request and continues, on none
it rejects with 401 in PassthroughMode::Block. -/
def keycloakMw (verify : Option String → Option User) : Middleware := fun req next =>
  match verify req.authHeader with
  | none => (PipelineResponse.ok (renderErr 401 "Unauthorized"), [Stage.authEntered])
  | some user =>
    let r := next { req with ext := some user }
    (r.1, Stage.authEntered :: Stage.identityAttached :: r.2)

/-- Models the admin_routes group of gitops app-source routes.rs:
layer(admin_guard) added first, layer(auth_layer) second, so the
Keycloak auth layer is outermost. -/
def gitops_admin_routes (verify : Option String → Option User)
    (handler : Req → HttpResponse) : Req → TracedResult :=
  applyLayers [adminGuardMw, keycloakMw verify] (handlerStage handler)

/-- Log event severity levels of the tracing macros used by the
observability wrapper. -/
inductive LogLevel where
  | info
  | warn
  | error
  | debug
deriving Repr, DecidableEq

/-- The test the wrapper applies to a lowercased header name before
logging it; models the contains calls in logging_middleware.rs. The Rust
str::contains with a literal pattern is substring containment. -/
def strContains (s pat : String) : Bool :=
  (List.range (s.data.length + 1)).any fun i =>
    List.isPrefixOf pat.data (s.data.drop i)

/-- Models the header-snapshot filter_map in logging_middleware.rs:
drop any header whose lowercased name contains "authorization", "cookie"
or "token"; otherwise keep (name, value) when value.to_str() succeeds
(the Option on the raw value models to_str().ok()). The Rust code then
collects the kept pairs into a HashMap; the snapshot entries are exactly
the kept pairs. -/
def captureHeader (h : String × Option String) : Option (String × String) :=
  let nameStr := lowerStr h.1
  if strContains nameStr "authorization" || strContains nameStr "cookie" ||
      strContains nameStr "token" then
    none
  else
    h.2.map fun v => (h.1, v)

/-- The full header snapshot: the filter_map of captureHeader over the
request headers. -/
def capturedHeaders (headers : List (String × Option String)) :
    List (String × String) :=
  headers.filterMap captureHeader

/-- Models the status match at the end of logging_middleware.rs: the
level and message of the completion event as a function of the response
status. -/
def completionLog (status : Nat) : LogLevel × String :=
  if 200 ≤ status ∧ status ≤ 299 then
    (LogLevel.info, "HTTP request completed successfully")
  else if 300 ≤ status ∧ status ≤ 399 then
    (LogLevel.info, "HTTP request redirected")
  else if 400 ≤ status ∧ status ≤ 499 then
    (LogLevel.warn, "HTTP request client error")
  else if 500 ≤ status ∧ status ≤ 599 then
    (LogLevel.error, "HTTP request server error")
  else
    (LogLevel.debug, "HTTP request completed")

/-- The request data the observability wrapper reads; matchedPath models
the MatchedPath extension when the router has matched a route pattern. -/
structure TraceReq where
  method : String
  uri : String
  uriPath : String
  version : String
  matchedPath : Option String
  headers : List (String × Option String)
deriving Repr, DecidableEq

/-- One structured log event as the wrapper emits it. -/
structure LogEvent where
  requestId : Nat
  level : LogLevel
  message : String
  path : String
  headers : List (String × String)
  status : Option Nat
deriving Repr, DecidableEq

/-- Models logging_middleware in logging_middleware.rs. requestId stands
for the fresh Uuid::new_v4 value. The wrapper resolves the logical path,
filters the header snapshot, emits the entry event, runs the inner
service on the untouched request, emits the completion event leveled by
status band, and returns the inner response as is. Emission is modelled
as the returned event list: the tracing macros return no error, so no
failure path from logging into the response exists. -/
def logging_middleware (requestId : Nat) (req : TraceReq)
    (next : TraceReq → HttpResponse) : HttpResponse × List LogEvent :=
  let path :=
    match req.matchedPath with
    | some mp => mp
    | none => req.uriPath
  let snapshot := capturedHeaders req.headers
  let entry : LogEvent :=
    { requestId := requestId, level := LogLevel.info
      message := "HTTP request started", path := path
      headers := snapshot, status := none }
  let response := next req
  let c := completionLog response.status
  let completion : LogEvent :=
    { requestId := requestId, level := c.1, message := c.2, path := path
      headers := [], status := some response.status }
  (response, [entry, completion])

/-- Collaborator environment in which every decode and every lookup
fails. -/
def env0 : AuthEnv := { decode := fun _ => none, fetchUser := fun _ => none }

/-- Collaborator environment in which the token "tok1" verifies to
claims whose subject is not a valid UUID. -/
def env1 : AuthEnv :=
  { decode := fun t =>
      if t = "tok1" then some { sub := "not-a-uuid", iat := 0, exp := 0 } else none
    fetchUser := fun _ => none }

/-- A canonical hyphenated UUID string. -/
def uuid0 : String := "00000000-0000-0000-0000-000000000000"

/-- A stored user whose role string is exactly "admin". -/
def adminUser : User :=
  { id := uuid0, name := "a", email := "a", password := "p"
    role := "admin", verified := true }

/-- A stored user whose role string is "user". -/
def plainUser : User :=
  { id := "u1", name := "b", email := "b", password := "p"
    role := "user", verified := false }

/-- A stored user whose role string is "Admin": the Role coercion
recognises it as Role.Admin, but it differs from the literal "admin" in
case. -/
def capsAdminUser : User :=
  { id := "u2", name := "c", email := "c", password := "p"
    role := "Admin", verified := true }

/-- Collaborator environment in which "tok4" verifies to a subject that
resolves to adminUser. -/
def env4 : AuthEnv :=
  { decode := fun t =>
      if t = "tok4" then some { sub := uuid0, iat := 0, exp := 0 } else none
    fetchUser := fun uid => if uid = uuid0 then some adminUser else none }

/-- A Keycloak verifier that accepts exactly the header value
"Bearer kc" and resolves it to adminUser. -/
def verify4 : Option String → Option User :=
  fun ah => if ah = some "Bearer kc" then some adminUser else none

/-- A handler that always answers 200 "ok". -/
def handler0 : Req → HttpResponse :=
  fun _ => { status := 200, headers := [], body := "ok" }

/-- Claim C1 (evidence of the code bug): in env1 the bearer token "tok1"
verifies successfully to claims whose subject "not-a-uuid" is not
parseable as a UUID, and on that request auth_guard does not produce the
uniform 401 error response — it reaches the .unwrap() panic, crashing
the request task. -/
theorem c1_malformed_subject_panics :
    env1.decode "tok1" = some { sub := "not-a-uuid", iat := 0, exp := 0 } ∧
    uuidParseStr "not-a-uuid" = none ∧
    (auth_guard env1 (some "Bearer tok1")).result
      = AuthResult.panicked "called Result::unwrap on an Err value" := by
  decide

/-- Claim C2 (counterexample): with the Authorization header omitted the
authenticated route group answers 401 whose body is the bare message
string, which is not the machine-readable JSON envelope the claim
states. -/
theorem c2_counterexample :
    (protected_routes env0 handler0 { authHeader := none, ext := none }).1
      = PipelineResponse.ok (renderErr 401 "Missing or invalid Authorization header") ∧
    ((renderErr 401 "Missing or invalid Authorization header").body
      == "\x7b\"status\":\"fail\",\"error\":\"Missing or invalid Authorization header\"\x7d")
      = false := by
  decide

/-- Claim C2 (amended): for every request to the authenticated route
group with the Authorization header omitted, the pipeline returns status
401 with the plain-text body "Missing or invalid Authorization header"
(not wrapped in a JSON envelope), and the inner handler is never
invoked. -/
theorem c2_missing_header_plain (env : AuthEnv) (handler : Req → HttpResponse)
    (ext : Option User) :
    protected_routes env handler { authHeader := none, ext := ext }
      = (PipelineResponse.ok (renderErr 401 "Missing or invalid Authorization header"),
         [Stage.authEntered]) ∧
    (protected_routes env handler { authHeader := none, ext := ext }).2.contains
      Stage.handlerEntered = false := by
  exact ⟨rfl, rfl⟩

/-- Claim C3 (counterexample): the header value "Bearer " has an empty
remainder after the prefix, yet auth_guard does reach the decode step on
it — the decoder is invoked with the empty token instead of the request
being rejected before any cryptographic work. -/
theorem c3_counterexample :
    dropStr "Bearer " 7 = "" ∧
    (auth_guard env0 (some "Bearer ")).decodeCalled = true := by
  decide

/-- Claim C3 (amended): an absent Authorization header, or one not
prefixed by the case-sensitive "Bearer ", is rejected with 401 before
the decode step is ever reached; but a header whose remainder after the
prefix is empty ("Bearer ") is not rejected early — it is handed to the
decoder, for every behaviour of the decoding collaborator. -/
theorem c3_early_reject (env : AuthEnv) (ah : Option String) :
    (ah = none →
      auth_guard env ah =
        { result := AuthResult.reject 401 "Missing or invalid Authorization header"
          decodeCalled := false }) ∧
    (∀ s, ah = some s → startsWithStr s "Bearer " = false →
      auth_guard env ah =
        { result := AuthResult.reject 401 "Invalid token format"
          decodeCalled := false }) ∧
    (auth_guard env (some "Bearer ")).decodeCalled = true := by
  refine ⟨?_, ?_, ?_⟩
  · rintro rfl
    rfl
  · rintro s rfl hpre
    simp [auth_guard, hpre]
  · rfl

/-- Witness for c3_early_reject at concrete inputs: the absent header
and the header "Basic x" are both rejected with the decoder never
called. -/
theorem c3_early_reject_witness :
    startsWithStr "Basic x" "Bearer " = false ∧
    auth_guard env0 none =
      { result := AuthResult.reject 401 "Missing or invalid Authorization header"
        decodeCalled := false } ∧
    auth_guard env0 (some "Basic x") =
      { result := AuthResult.reject 401 "Invalid token format"
        decodeCalled := false } :=
  ⟨by decide, (c3_early_reject env0 none).1 rfl,
    (c3_early_reject env0 (some "Basic x")).2.1 "Basic x" rfl (by decide)⟩

/-- Unfolding lemma: the task-api admin group is the auth_guard layer
wrapped around the admin_guard layer wrapped around the handler (the
layer added last in routes.rs is outermost). -/
theorem admin_routes_def (env : AuthEnv) (handler : Req → HttpResponse) (req : Req) :
    admin_routes env handler req
      = authGuardMw env req (fun r => adminGuardMw r (handlerStage handler)) := rfl

/-- Unfolding lemma: the gitops admin group is the Keycloak layer
wrapped around the admin_guard layer wrapped around the handler. -/
theorem gitops_admin_routes_def (verify : Option String → Option User)
    (handler : Req → HttpResponse) (req : Req) :
    gitops_admin_routes verify handler req
      = keycloakMw verify req (fun r => adminGuardMw r (handlerStage handler)) := rfl

/-- Helper: the trace of the admin_guard stage over a handler is either
a lone adminEntered (rejection) or adminEntered followed by
handlerEntered (permit). -/
theorem adminGuardMw_trace (r : Req) (handler : Req → HttpResponse) :
    (adminGuardMw r (handlerStage handler)).2 = [Stage.adminEntered] ∨
    (adminGuardMw r (handlerStage handler)).2
      = [Stage.adminEntered, Stage.handlerEntered] := by
  unfold adminGuardMw
  cases hg : admin_guard r.ext with
  | reject s m => exact Or.inl rfl
  | ok => exact Or.inr rfl

/-- Claim C4: in both composed admin route groups, whenever the
authorization stage is entered on a request, authentication has already
succeeded on that same request (the verifier produced an identity) and
the identity was attached to the request context strictly before the
authorization stage ran; when authentication rejects, the authorization
stage is unreachable. -/
theorem c4_authz_after_authn (env : AuthEnv) (verify : Option String → Option User)
    (handler : Req → HttpResponse) (req : Req) :
    ((admin_routes env handler req).2.contains Stage.adminEntered = true →
      (∃ u, (auth_guard env req.authHeader).result = AuthResult.ok u) ∧
      (admin_routes env handler req).2.indexOf Stage.identityAttached
        < (admin_routes env handler req).2.indexOf Stage.adminEntered) ∧
    ((gitops_admin_routes verify handler req).2.contains Stage.adminEntered = true →
      (∃ u, verify req.authHeader = some u) ∧
      (gitops_admin_routes verify handler req).2.indexOf Stage.identityAttached
        < (gitops_admin_routes verify handler req).2.indexOf Stage.adminEntered) := by
  constructor
  · intro hmem
    rw [admin_routes_def] at hmem ⊢
    unfold authGuardMw at hmem ⊢
    cases hres : (auth_guard env req.authHeader).result with
    | reject s m =>
      rw [hres] at hmem
      have hfalse : ([Stage.authEntered]).contains Stage.adminEntered = true := hmem
      exact absurd hfalse (by decide)
    | panicked m =>
      rw [hres] at hmem
      have hfalse : ([Stage.authEntered]).contains Stage.adminEntered = true := hmem
      exact absurd hfalse (by decide)
    | ok u =>
      refine ⟨⟨u, rfl⟩, ?_⟩
      show List.indexOf Stage.identityAttached
          (Stage.authEntered :: Stage.identityAttached ::
            (adminGuardMw { authHeader := req.authHeader, ext := some u }
              (handlerStage handler)).2)
        < List.indexOf Stage.adminEntered
          (Stage.authEntered :: Stage.identityAttached ::
            (adminGuardMw { authHeader := req.authHeader, ext := some u }
              (handlerStage handler)).2)
      rcases adminGuardMw_trace { authHeader := req.authHeader, ext := some u } handler
        with htr | htr
      · rw [htr]
        decide
      · rw [htr]
        decide
  · intro hmem
    rw [gitops_admin_routes_def] at hmem ⊢
    unfold keycloakMw at hmem ⊢
    cases hv : verify req.authHeader with
    | none =>
      rw [hv] at hmem
      have hfalse : ([Stage.authEntered]).contains Stage.adminEntered = true := hmem
      exact absurd hfalse (by decide)
    | some u =>
      refine ⟨⟨u, rfl⟩, ?_⟩
      show List.indexOf Stage.identityAttached
          (Stage.authEntered :: Stage.identityAttached ::
            (adminGuardMw { authHeader := req.authHeader, ext := some u }
              (handlerStage handler)).2)
        < List.indexOf Stage.adminEntered
          (Stage.authEntered :: Stage.identityAttached ::
            (adminGuardMw { authHeader := req.authHeader, ext := some u }
              (handlerStage handler)).2)
      rcases adminGuardMw_trace { authHeader := req.authHeader, ext := some u } handler
        with htr | htr
      · rw [htr]
        decide
      · rw [htr]
        decide

/-- Witness for c4_authz_after_authn: in env4 the request bearing
"Bearer tok4" (resp. "Bearer kc" for the Keycloak variant) does enter
the authorization stage, and the theorem yields the ordering facts. -/
theorem c4_witness :
    ((admin_routes env4 handler0 { authHeader := some "Bearer tok4", ext := none }).2.contains
      Stage.adminEntered = true) ∧
    ((∃ u, (auth_guard env4 (some "Bearer tok4")).result = AuthResult.ok u) ∧
      (admin_routes env4 handler0 { authHeader := some "Bearer tok4", ext := none }).2.indexOf
          Stage.identityAttached
        < (admin_routes env4 handler0 { authHeader := some "Bearer tok4", ext := none }).2.indexOf
          Stage.adminEntered) ∧
    ((gitops_admin_routes verify4 handler0 { authHeader := some "Bearer kc", ext := none }).2.contains
      Stage.adminEntered = true) ∧
    ((∃ u, verify4 (some "Bearer kc") = some u) ∧
      (gitops_admin_routes verify4 handler0 { authHeader := some "Bearer kc", ext := none }).2.indexOf
          Stage.identityAttached
        < (gitops_admin_routes verify4 handler0 { authHeader := some "Bearer kc", ext := none }).2.indexOf
          Stage.adminEntered) :=
  ⟨by decide,
    (c4_authz_after_authn env4 verify4 handler0
      { authHeader := some "Bearer tok4", ext := none }).1 (by decide),
    by decide,
    (c4_authz_after_authn env4 verify4 handler0
      { authHeader := some "Bearer kc", ext := none }).2 (by decide)⟩

/-- Helper: a role string recognised as anything other than Role.Admin
by the coercion cannot be the literal "admin". -/
theorem role_ne_admin_of_ofString (r : String) (h : Role.ofString r ≠ Role.Admin) :
    r ≠ "admin" := by
  intro he
  apply h
  rw [he]
  decide

/-- Claim C5: a request reaching the admin stage with an attached
identity whose role is not the Admin role is answered 403 with body
"Admin access required" and the handler is never invoked; a request
reaching it with no identity attached at all is answered 401 (the guard
returns an error response, it does not crash). -/
theorem c5_admin_guard_deny (u : User) (handler : Req → HttpResponse)
    (ah : Option String) (hrole : Role.ofString u.role ≠ Role.Admin) :
    adminGuardMw { authHeader := ah, ext := some u } (handlerStage handler)
      = (PipelineResponse.ok (renderErr 403 "Admin access required"),
         [Stage.adminEntered]) ∧
    (adminGuardMw { authHeader := ah, ext := some u } (handlerStage handler)).2.contains
      Stage.handlerEntered = false ∧
    (∀ handler2 ah2, adminGuardMw { authHeader := ah2, ext := none } (handlerStage handler2)
      = (PipelineResponse.ok (renderErr 401 "User not authenticated"),
         [Stage.adminEntered])) := by
  have hne : u.role ≠ "admin" := role_ne_admin_of_ofString u.role hrole
  have hguard : admin_guard (some u) = AdminResult.reject 403 "Admin access required" := by
    unfold admin_guard
    exact if_pos hne
  refine ⟨?_, ?_, ?_⟩
  · unfold adminGuardMw
    rw [hguard]
  · unfold adminGuardMw
    rw [hguard]
    rfl
  · intro handler2 ah2
    rfl

/-- Witness for c5_admin_guard_deny at plainUser (role "user"): the
coercion does not recognise "user" as Admin and the guard denies with
403. -/
theorem c5_witness :
    Role.ofString plainUser.role ≠ Role.Admin ∧
    (adminGuardMw { authHeader := none, ext := some plainUser } (handlerStage handler0)
      = (PipelineResponse.ok (renderErr 403 "Admin access required"),
         [Stage.adminEntered]) ∧
    (adminGuardMw { authHeader := none, ext := some plainUser }
      (handlerStage handler0)).2.contains Stage.handlerEntered = false ∧
    (∀ handler2 ah2, adminGuardMw { authHeader := ah2, ext := none } (handlerStage handler2)
      = (PipelineResponse.ok (renderErr 401 "User not authenticated"),
         [Stage.adminEntered]))) :=
  ⟨by decide, c5_admin_guard_deny plainUser handler0 none (by decide)⟩

/-- Claim C6: the string-to-Role coercion is total — every string maps
to Admin or User — and it maps a string to Admin exactly when the
lowercased string is "admin"; every other string, recognised or not,
coerces to User. -/
theorem c6_role_total_fail_open (s : String) :
    (Role.ofString s = Role.Admin ∨ Role.ofString s = Role.User) ∧
    (Role.ofString s = Role.Admin ↔ lowerStr s = "admin") := by
  constructor
  · cases h : Role.ofString s with
    | Admin => exact Or.inl rfl
    | User => exact Or.inr rfl
  · constructor
    · intro h
      by_contra hne
      have : Role.ofString s = Role.User := by
        unfold Role.ofString
        split
        · exact absurd (by assumption) hne
        · rfl
        · rfl
      rw [this] at h
      exact Role.noConfusion h
    · intro h
      unfold Role.ofString
      rw [h]
      rfl

/-- Witness for c6_role_total_fail_open at the input "ADMIN". -/
theorem c6_witness :
    (Role.ofString "ADMIN" = Role.Admin ∨ Role.ofString "ADMIN" = Role.User) ∧
    (Role.ofString "ADMIN" = Role.Admin ↔ lowerStr "ADMIN" = "admin") :=
  c6_role_total_fail_open "ADMIN"

/-- Claim C7: the completion log level is determined by the status band
of the response: informational for 200-399, warning for 400-499, error
for 500-599, debug for any other status; in particular 404 logs at
warning and 503 at error. -/
theorem c7_completion_levels (a b c d : Nat) :
    (200 ≤ a → a ≤ 399 → (completionLog a).1 = LogLevel.info) ∧
    (400 ≤ b → b ≤ 499 → (completionLog b).1 = LogLevel.warn) ∧
    (500 ≤ c → c ≤ 599 → (completionLog c).1 = LogLevel.error) ∧
    ((d < 200 ∨ 599 < d) → (completionLog d).1 = LogLevel.debug) ∧
    (completionLog 404).1 = LogLevel.warn ∧
    (completionLog 503).1 = LogLevel.error := by
  refine ⟨?_, ?_, ?_, ?_, by decide, by decide⟩
  · intro h1 h2
    unfold completionLog
    split_ifs with i1 i2 <;> first | rfl | omega
  · intro h1 h2
    unfold completionLog
    split_ifs with i1 i2 i3 <;> first | rfl | omega
  · intro h1 h2
    unfold completionLog
    split_ifs with i1 i2 i3 i4 <;> first | rfl | omega
  · intro hd
    rcases hd with hd | hd <;>
      · unfold completionLog
        split_ifs with i1 i2 i3 i4 <;> first | rfl | omega

/-- Witness for c7_completion_levels at statuses 250, 404, 503 and
100. -/
theorem c7_witness :
    (completionLog 250).1 = LogLevel.info ∧
    (completionLog 404).1 = LogLevel.warn ∧
    (completionLog 503).1 = LogLevel.error ∧
    (completionLog 100).1 = LogLevel.debug :=
  ⟨(c7_completion_levels 250 404 503 100).1 (by decide) (by decide),
   (c7_completion_levels 250 404 503 100).2.1 (by decide) (by decide),
   (c7_completion_levels 250 404 503 100).2.2.1 (by decide) (by decide),
   (c7_completion_levels 250 404 503 100).2.2.2.1 (Or.inl (by decide))⟩

/-- Claim C8: the header snapshot contains no entry for any header whose
lowercased name contains the substring "authorization", "cookie" or
"token" — such headers are fully omitted from the snapshot. -/
theorem c8_sensitive_headers_omitted (headers : List (String × Option String))
    (n : String)
    (hsens : (strContains (lowerStr n) "authorization" ||
      strContains (lowerStr n) "cookie" ||
      strContains (lowerStr n) "token") = true) :
    ((capturedHeaders headers).any fun p => p.1 == n) = false := by
  induction headers with
  | nil => rfl
  | cons h t ih =>
    unfold capturedHeaders at ih ⊢
    rw [List.filterMap_cons]
    cases hf : captureHeader h with
    | none => exact ih
    | some p =>
      rw [List.any_cons]
      have hp1 : p.1 = h.1 := by
        unfold captureHeader at hf
        by_cases hs : (strContains (lowerStr h.1) "authorization" ||
            strContains (lowerStr h.1) "cookie" ||
            strContains (lowerStr h.1) "token") = true
        · rw [if_pos hs] at hf
          exact Option.noConfusion hf
        · rw [if_neg hs] at hf
          cases hv : h.2 with
          | none =>
            rw [hv] at hf
            exact Option.noConfusion hf
          | some v =>
            rw [hv] at hf
            injection hf with hf2
            rw [← hf2]
      have hnot : (strContains (lowerStr h.1) "authorization" ||
          strContains (lowerStr h.1) "cookie" ||
          strContains (lowerStr h.1) "token") = false := by
        unfold captureHeader at hf
        by_cases hs : (strContains (lowerStr h.1) "authorization" ||
            strContains (lowerStr h.1) "cookie" ||
            strContains (lowerStr h.1) "token") = true
        · rw [if_pos hs] at hf
          exact Option.noConfusion hf
        · exact Bool.not_eq_true _ ▸ Bool.of_not_eq_true hs
      have hne : h.1 ≠ n := by
        intro he
        rw [he] at hnot
        rw [hsens] at hnot
        exact Bool.noConfusion hnot
      have hbeq : (p.1 == n) = false := by
        rw [hp1]
        exact beq_eq_false_iff_ne.mpr hne
      simp only [hbeq, Bool.false_or]
      exact ih

/-- Witness for c8_sensitive_headers_omitted: a concrete request
carrying an Authorization header and an accept header yields a snapshot
with no Authorization entry. -/
theorem c8_witness :
    (strContains (lowerStr "Authorization") "authorization" ||
      strContains (lowerStr "Authorization") "cookie" ||
      strContains (lowerStr "Authorization") "token") = true ∧
    ((capturedHeaders
        [("Authorization", some "Bearer abc"), ("accept", some "application/json")]).any
      fun p => p.1 == "Authorization") = false :=
  ⟨by decide,
    c8_sensitive_headers_omitted
      [("Authorization", some "Bearer abc"), ("accept", some "application/json")]
      "Authorization" (by decide)⟩

/-- Claim C9: the observability wrapper returns exactly the response the
inner chain produced — same status, headers and body — and its only
other output is the log event list, so no logging-side condition can
replace the response with an error. -/
theorem c9_response_unaltered (requestId : Nat) (req : TraceReq)
    (next : TraceReq → HttpResponse) :
    (logging_middleware requestId req next).1 = next req := rfl

/-- Claim C10: the admin check compares the raw role string with the
literal "admin" case-sensitively: an identity whose role string
lowercases to "admin" but differs from it in case is denied with 403,
even though the Role coercion recognises that same string as the Admin
role. -/
theorem c10_admin_check_case_sensitive (u : User) (handler : Req → HttpResponse)
    (ah : Option String) (hlow : lowerStr u.role = "admin")
    (hne : u.role ≠ "admin") :
    adminGuardMw { authHeader := ah, ext := some u } (handlerStage handler)
      = (PipelineResponse.ok (renderErr 403 "Admin access required"),
         [Stage.adminEntered]) ∧
    Role.ofString u.role = Role.Admin := by
  constructor
  · have hguard : admin_guard (some u) = AdminResult.reject 403 "Admin access required" := by
      unfold admin_guard
      exact if_pos hne
    unfold adminGuardMw
    rw [hguard]
  · unfold Role.ofString
    rw [hlow]
    rfl

/-- Witness for c10_admin_check_case_sensitive at capsAdminUser, whose
role string is "Admin". -/
theorem c10_witness :
    lowerStr capsAdminUser.role = "admin" ∧
    capsAdminUser.role ≠ "admin" ∧
    (adminGuardMw { authHeader := none, ext := some capsAdminUser }
        (handlerStage handler0)
      = (PipelineResponse.ok (renderErr 403 "Admin access required"),
         [Stage.adminEntered]) ∧
    Role.ofString capsAdminUser.role = Role.Admin) :=
  ⟨by decide, by decide,
    c10_admin_check_case_sensitive capsAdminUser handler0 none (by decide) (by decide)⟩
